import Mathlib

/-!
Shallow embedding of the data/metric pipeline of `dashboard.py`
(Manuelkreate/ML-Projects): record loader (pandas left merge plus derived
fields), KPI engine, monthly resample trend engine, month-over-month deltas,
breakdown engines and the city/month filter stage.

Modelling conventions:
- pandas float columns are modelled as rationals (ℚ);
- non-finite aggregate results (NaN from the mean of an empty series, NaN/inf
  from a zero-denominator column division at the aggregate level) are
  modelled as `none : Option ℚ`;
- a DataFrame is a `List` of row structures, in row order;
- `pd.read_csv` failure (`FileNotFoundError`) is modelled by the source
  argument being `none`; the source code catches it and returns an empty
  DataFrame, modelled as `[]`.
-/

namespace Dashboard

/-- A calendar date (year, month 1..12, day), as parsed by `pd.to_datetime`. -/
structure Date where
  year : ℕ
  month : ℕ
  day : ℕ
deriving DecidableEq, Repr

/-- Linear index of the calendar month of a date: grouping key used by
`resample('M')` (month boundary, not the display label). -/
def monthKey (d : Date) : ℕ := d.year * 12 + (d.month - 1)

/-- English month abbreviation, as produced by `strftime('%b ...')`. -/
def monthAbbrev : ℕ → String
  | 1 => "Jan" | 2 => "Feb" | 3 => "Mar" | 4 => "Apr"
  | 5 => "May" | 6 => "Jun" | 7 => "Jul" | 8 => "Aug"
  | 9 => "Sep" | 10 => "Oct" | 11 => "Nov" | _ => "Dec"

/-- Display label of a month key, as `strftime('%b %Y')` on any date of that
month: e.g. "Jan 2024". -/
def monthLabel (k : ℕ) : String := monthAbbrev (k % 12 + 1) ++ " " ++ toString (k / 12)

/-- One row of `deliveries.csv`. -/
structure DeliveryRow where
  delivery_id : ℕ
  vehicle_id : ℕ
  date : Date
  city : String
  planned_minutes : ℚ
  actual_minutes : ℚ
  on_time : Bool
  fuel_cost : ℚ
  other_cost : ℚ
  distance_km : ℚ
deriving DecidableEq, Repr

/-- One row of `fleet.csv`. -/
structure FleetRow where
  vehicle_id : ℕ
  city : String
deriving DecidableEq, Repr

/-- One row of the enriched DataFrame built by `load_and_prepare_data`:
the merged columns (with `city_x`/`city_y` renamed to `delivery_city` /
`vehicle_home_city`) plus the derived columns of lines 62-66. -/
structure Row where
  delivery_id : ℕ
  vehicle_id : ℕ
  date : Date
  delivery_city : String
  planned_minutes : ℚ
  actual_minutes : ℚ
  on_time : Bool
  fuel_cost : ℚ
  other_cost : ℚ
  distance_km : ℚ
  vehicle_home_city : Option String
  delay_minutes : ℚ
  total_cost : ℚ
  cost_per_km : ℚ
  fuel_cost_per_km : ℚ
  month_name : String
deriving DecidableEq, Repr

/-- Build one enriched row from a delivery row and the (optional) home city
found for its vehicle: the column renames of line 61 and the derived
columns of lines 62-66 of the source. -/
def mkRow (d : DeliveryRow) (home : Option String) : Row :=
  { delivery_id := d.delivery_id
    vehicle_id := d.vehicle_id
    date := d.date
    delivery_city := d.city
    planned_minutes := d.planned_minutes
    actual_minutes := d.actual_minutes
    on_time := d.on_time
    fuel_cost := d.fuel_cost
    other_cost := d.other_cost
    distance_km := d.distance_km
    vehicle_home_city := home
    delay_minutes := d.actual_minutes - d.planned_minutes
    total_cost := d.fuel_cost + d.other_cost
    cost_per_km := (d.fuel_cost + d.other_cost) / d.distance_km
    fuel_cost_per_km := d.fuel_cost / d.distance_km
    month_name := monthLabel (monthKey d.date) }

/-- `pd.merge(deliveries_df, fleet_df, on='vehicle_id', how='left')`:
every delivery row is kept; it is replicated once per fleet row with the
same `vehicle_id`, and kept once with absent vehicle fields when no fleet
row matches. -/
def mergeOne (fs : List FleetRow) (d : DeliveryRow) : List Row :=
  match fs.filter (fun f => f.vehicle_id = d.vehicle_id) with
  | [] => [mkRow d none]
  | ms => ms.map fun f => mkRow d (some f.city)

/-- The left merge itself: one block of output rows per delivery row, in
delivery order. -/
def leftMerge (ds : List DeliveryRow) (fs : List FleetRow) : List Row :=
  ds.flatMap (mergeOne fs)

/-- `load_and_prepare_data` (lines 51-67): a `none` source models an
unreadable/missing csv; the source code catches `FileNotFoundError`, reports
the error state (`st.error`) and returns an empty DataFrame. -/
def load_and_prepare_data (deliveriesSrc : Option (List DeliveryRow))
    (fleetSrc : Option (List FleetRow)) : List Row :=
  match deliveriesSrc, fleetSrc with
  | some ds, some fs => leftMerge ds fs
  | _, _ => []

/-- Sum of a list of rationals (`Series.sum`, which is 0 on an empty series). -/
def sumQ (xs : List ℚ) : ℚ := xs.foldr (· + ·) 0

/-- Float division at the aggregate level: numpy yields a non-finite value
(NaN or ±inf) on a zero denominator, modelled as `none`. -/
def fdiv (a b : ℚ) : Option ℚ := if b = 0 then none else some (a / b)

/-- `Series.mean`: NaN (`none`) on an empty series, else sum / length. -/
def meanQ (xs : List ℚ) : Option ℚ := fdiv (sumQ xs) xs.length

/-- Indicator of a boolean, as pandas sums/averages an `on_time` column. -/
def boolVal (b : Bool) : ℚ := if b then 1 else 0

/-- Insert into an ascending list of naturals (helper for groupby key order). -/
def insertNat (a : ℕ) : List ℕ → List ℕ
  | [] => [a]
  | b :: bs => if a ≤ b then a :: b :: bs else b :: insertNat a bs

/-- Ascending insertion sort on naturals. -/
def sortNat (l : List ℕ) : List ℕ := l.foldr insertNat []

/-- Insert into an ascending list of strings (helper for groupby key order). -/
def insertStr (a : String) : List String → List String
  | [] => [a]
  | b :: bs => if a ≤ b then a :: b :: bs else b :: insertStr a bs

/-- Ascending insertion sort on strings. -/
def sortStr (l : List String) : List String := l.foldr insertStr []

/-- Distinct `vehicle_id` keys of a groupby, in ascending key order
(pandas sorts group keys by default). -/
def vehicleIds (df : List Row) : List ℕ :=
  sortNat ((df.map fun r => r.vehicle_id).dedup)

/-- Per-vehicle delivery counts: `df.groupby('vehicle_id')['delivery_id'].count()`. -/
def vehicleCounts (df : List Row) : List (ℕ × ℕ) :=
  (vehicleIds df).map fun v => (v, (df.filter (fun r => r.vehicle_id = v)).length)

/-- The five headline scalars of `calculate_kpis` (lines 71-83). -/
structure KpiSet where
  avg_delay : Option ℚ
  on_time_rate : Option ℚ
  cost_per_km : Option ℚ
  deliveries_per_vehicle : Option ℚ
  fuel_cost_share : Option ℚ
deriving DecidableEq, Repr

/-- `calculate_kpis` (lines 71-83). `fuel_cost_share` embeds the source's
"Fuel Cost Ratio" entry, `100 * sum(fuel_cost) / sum(total_cost)`. -/
def calculate_kpis (df : List Row) : KpiSet :=
  { avg_delay := meanQ (df.map fun r => r.delay_minutes)
    on_time_rate := (fdiv (sumQ (df.map fun r => boolVal r.on_time)) df.length).map (· * 100)
    cost_per_km := fdiv (sumQ (df.map fun r => r.total_cost)) (sumQ (df.map fun r => r.distance_km))
    deliveries_per_vehicle := meanQ ((vehicleCounts df).map fun p => (p.2 : ℚ))
    fuel_cost_share := (fdiv (sumQ (df.map fun r => r.fuel_cost)) (sumQ (df.map fun r => r.total_cost))).map (· * 100) }

/-- Month keys of all rows of a table. -/
def monthKeys (df : List Row) : List ℕ := df.map fun r => monthKey r.date

/-- Smallest month key of a nonempty table (0 on an empty one). -/
def minMonthKey (df : List Row) : ℕ :=
  match monthKeys df with
  | [] => 0
  | k :: ks => ks.foldl min k

/-- Largest month key of a nonempty table (0 on an empty one). -/
def maxMonthKey (df : List Row) : ℕ :=
  match monthKeys df with
  | [] => 0
  | k :: ks => ks.foldl max k

/-- The ascending sequence of month keys spanned by `resample('M')`: every
calendar month from the earliest to the latest date in the table, gap months
included; empty for an empty table. -/
def monthRange (df : List Row) : List ℕ :=
  match monthKeys df with
  | [] => []
  | k :: ks =>
    let lo := ks.foldl min k
    let hi := ks.foldl max k
    (List.range (hi + 1 - lo)).map (lo + ·)

/-- The rows falling in the monthly bucket with key `k`. -/
def bucketRows (df : List Row) (k : ℕ) : List Row :=
  df.filter fun r => monthKey r.date = k

/-- One bucket of the `monthly_summary` resample of `main` (lines 176-182):
per-month mean delay, mean on-time rate, mean cost_per_km, delivery count and
mean per-row fuel-cost percentage. -/
structure MonthlyBucket where
  key : ℕ
  avg_delay : Option ℚ
  on_time_rate : Option ℚ
  cost_per_km : Option ℚ
  deliveries_per_vehicle : ℕ
  fuel_cost_share : Option ℚ
deriving DecidableEq, Repr

/-- Aggregates of the bucket with key `k` (lines 176-182; the per-row
`fuel_cost_ratio` column of line 174 is `100 * fuel_cost / total_cost`). -/
def mkBucket (df : List Row) (k : ℕ) : MonthlyBucket :=
  let rs := bucketRows df k
  { key := k
    avg_delay := meanQ (rs.map fun r => r.delay_minutes)
    on_time_rate := meanQ (rs.map fun r => boolVal r.on_time)
    cost_per_km := meanQ (rs.map fun r => r.cost_per_km)
    deliveries_per_vehicle := rs.length
    fuel_cost_share := meanQ (rs.map fun r => r.fuel_cost / r.total_cost * 100) }

/-- `monthly_summary` (lines 176-182): one bucket per month from the earliest
to the latest date of the (filtered) table, ascending. -/
def monthlySummary (df : List Row) : List MonthlyBucket :=
  (monthRange df).map (mkBucket df)

/-- One bucket of `monthly_trend` in `prepare_chart_data` (lines 95-99). -/
structure TrendBucket where
  key : ℕ
  avg_delay : Option ℚ
  cost_per_km : Option ℚ
  month_name : String
deriving DecidableEq, Repr

/-- The `monthly_trend` table of `prepare_chart_data` (lines 95-99). -/
def monthlyTrend (df : List Row) : List TrendBucket :=
  (monthRange df).map fun k =>
    let rs := bucketRows df k
    { key := k
      avg_delay := meanQ (rs.map fun r => r.delay_minutes)
      cost_per_km := meanQ (rs.map fun r => r.cost_per_km)
      month_name := monthLabel k }

/-- `((curr - prev) / prev) * 100 if prev != 0 else 0` (line 188) on float
column values where either end may be NaN (`none`): NaN compares nonzero in
Python, so a NaN `prev` enters the division branch and yields NaN. -/
def momDelta (prev curr : Option ℚ) : Option ℚ :=
  match prev with
  | none => none
  | some p =>
    if p = 0 then some 0
    else (curr.map fun c => (c - p) / p * 100)

/-- Month-over-month delta of one column of `monthly_summary` (lines 185-191):
0 with fewer than two buckets, else `momDelta` of the last two values
(`iloc[-2]`, `iloc[-1]`). -/
def momColumn (xs : List (Option ℚ)) : Option ℚ :=
  if 2 ≤ xs.length then
    match xs.dropLast.getLast?, xs.getLast? with
    | some prev, some curr => momDelta prev curr
    | _, _ => some 0
  else some 0

/-- The five MoM deltas of `mom_values` (lines 184-191). -/
structure KpiDeltas where
  avg_delay : Option ℚ
  on_time_rate : Option ℚ
  cost_per_km : Option ℚ
  deliveries_per_vehicle : Option ℚ
  fuel_cost_share : Option ℚ
deriving DecidableEq, Repr

/-- `mom_values` (lines 184-191), computed from `monthly_summary` of the
filtered table. -/
def mom_values (df : List Row) : KpiDeltas :=
  let ms := monthlySummary df
  { avg_delay := momColumn (ms.map fun b => b.avg_delay)
    on_time_rate := momColumn (ms.map fun b => b.on_time_rate)
    cost_per_km := momColumn (ms.map fun b => b.cost_per_km)
    deliveries_per_vehicle := momColumn (ms.map fun b => some (b.deliveries_per_vehicle : ℚ))
    fuel_cost_share := momColumn (ms.map fun b => b.fuel_cost_share) }

/-- City filter of `main` (lines 163-164): "All" is the unset selection. -/
def filterByCity (c : String) (df : List Row) : List Row :=
  if c = "All" then df else df.filter fun r => r.delivery_city = c

/-- Month filter of `main` (lines 165-166): "All" is the unset selection. -/
def filterByMonth (m : String) (df : List Row) : List Row :=
  if m = "All" then df else df.filter fun r => r.month_name = m

/-- Distinct delivery cities in ascending order (groupby key order). -/
def cityKeys (df : List Row) : List String :=
  sortStr ((df.map fun r => r.delivery_city).dedup)

/-- `delay_by_city` (line 88): mean delay per delivery city. -/
def delayByCity (df : List Row) : List (String × Option ℚ) :=
  (cityKeys df).map fun c =>
    (c, meanQ ((df.filter fun r => r.delivery_city = c).map fun r => r.delay_minutes))

/-- `cost_time_city` (lines 89-93): per city, mean cost_per_km and mean
on-time rate scaled by 100. -/
def costTimeCity (df : List Row) : List (String × Option ℚ × Option ℚ) :=
  (cityKeys df).map fun c =>
    let rs := df.filter fun r => r.delivery_city = c
    (c, meanQ (rs.map fun r => r.cost_per_km),
      (meanQ (rs.map fun r => boolVal r.on_time)).map (· * 100))

/-- The full output bundle a run of `main` hands to the presentation layer
(lines 169-242): KPI set, MoM deltas, monthly trend, city breakdowns and the
vehicle delivery-count distribution. -/
structure Outputs where
  kpis : KpiSet
  deltas : KpiDeltas
  trend : List TrendBucket
  delay_by_city : List (String × Option ℚ)
  cost_time_city : List (String × Option ℚ × Option ℚ)
  vehicle_dist : List (ℕ × ℕ)
deriving DecidableEq, Repr

/-- The pipeline of `main` (lines 145-242): load, short-circuit on an empty
loaded table (lines 150-151), filter, then compute every output. Returns
`none` for the rendered empty/error state. -/
def runPipeline (deliveriesSrc : Option (List DeliveryRow))
    (fleetSrc : Option (List FleetRow)) (city month : String) : Option Outputs :=
  let df0 := load_and_prepare_data deliveriesSrc fleetSrc
  if df0 = [] then none
  else
    let df := filterByMonth month (filterByCity city df0)
    some
      { kpis := calculate_kpis df
        deltas := mom_values df
        trend := monthlyTrend df
        delay_by_city := delayByCity df
        cost_time_city := costTimeCity df
        vehicle_dist := vehicleCounts df }

/-- Two delivery events with total costs 10 and 20 and distances 2 and 5
(the ratio-of-sums versus mean-of-ratios example of the spec). -/
def exDeliveries : List DeliveryRow :=
  [{ delivery_id := 1, vehicle_id := 1, date := ⟨2024, 1, 10⟩, city := "Lagos",
     planned_minutes := 30, actual_minutes := 35, on_time := true,
     fuel_cost := 6, other_cost := 4, distance_km := 2 },
   { delivery_id := 2, vehicle_id := 2, date := ⟨2024, 1, 12⟩, city := "Abuja",
     planned_minutes := 40, actual_minutes := 38, on_time := true,
     fuel_cost := 12, other_cost := 8, distance_km := 5 }]

/-- A registry for the two example vehicles. -/
def exFleet : List FleetRow := [⟨1, "Lagos"⟩, ⟨2, "Abuja"⟩]

/-- The enriched table of the example run. -/
def exTable : List Row := load_and_prepare_data (some exDeliveries) (some exFleet)

/-- A single delivery event whose vehicle is listed twice in `dupFleet`. -/
def dupDeliveries : List DeliveryRow :=
  [{ delivery_id := 1, vehicle_id := 7, date := ⟨2024, 1, 10⟩, city := "Lagos",
     planned_minutes := 30, actual_minutes := 35, on_time := true,
     fuel_cost := 6, other_cost := 4, distance_km := 2 }]

/-- A vehicle registry carrying the key 7 twice. -/
def dupFleet : List FleetRow := [⟨7, "Lagos"⟩, ⟨7, "Kano"⟩]

/-- Deliveries dated January 2024 and March 2024 with no February record:
the resample produces an empty February bucket right before the latest one. -/
def gapDeliveries : List DeliveryRow :=
  [{ delivery_id := 1, vehicle_id := 1, date := ⟨2024, 1, 10⟩, city := "Lagos",
     planned_minutes := 30, actual_minutes := 35, on_time := true,
     fuel_cost := 6, other_cost := 4, distance_km := 2 },
   { delivery_id := 2, vehicle_id := 1, date := ⟨2024, 3, 5⟩, city := "Lagos",
     planned_minutes := 40, actual_minutes := 50, on_time := false,
     fuel_cost := 12, other_cost := 8, distance_km := 5 }]

/-- The enriched table of the gap-month run. -/
def gapTable : List Row := load_and_prepare_data (some gapDeliveries) (some exFleet)

lemma foldl_min_le_self (k : ℕ) (ks : List ℕ) : ks.foldl min k ≤ k := by
  induction ks generalizing k with
  | nil => exact le_refl k
  | cons a as ih => exact le_trans (ih (min k a)) (min_le_left k a)

lemma foldl_min_le_mem {x : ℕ} (k : ℕ) {ks : List ℕ} (hx : x ∈ ks) : ks.foldl min k ≤ x := by
  induction ks generalizing k with
  | nil => cases hx
  | cons a as ih =>
    rcases List.mem_cons.mp hx with h | h
    · subst h; exact le_trans (foldl_min_le_self (min k x) as) (min_le_right k x)
    · exact ih _ h

lemma self_le_foldl_max (k : ℕ) (ks : List ℕ) : k ≤ ks.foldl max k := by
  induction ks generalizing k with
  | nil => exact le_refl k
  | cons a as ih => exact le_trans (le_max_left k a) (ih (max k a))

lemma mem_le_foldl_max {x : ℕ} (k : ℕ) {ks : List ℕ} (hx : x ∈ ks) : x ≤ ks.foldl max k := by
  induction ks generalizing k with
  | nil => cases hx
  | cons a as ih =>
    rcases List.mem_cons.mp hx with h | h
    · subst h; exact le_trans (le_max_right k x) (self_le_foldl_max (max k x) as)
    · exact ih _ h

lemma monthKeys_ne_nil {df : List Row} (hne : df ≠ []) : monthKeys df ≠ [] := by
  cases df with
  | nil => exact absurd rfl hne
  | cons r rs => simp [monthKeys]

lemma minMonthKey_le_maxMonthKey {df : List Row} (hne : df ≠ []) :
    minMonthKey df ≤ maxMonthKey df := by
  unfold minMonthKey maxMonthKey
  cases h : monthKeys df with
  | nil => exact absurd h (monthKeys_ne_nil hne)
  | cons k ks => exact le_trans (foldl_min_le_self k ks) (self_le_foldl_max k ks)

lemma mem_monthRange {df : List Row} (hne : df ≠ []) (k : ℕ) :
    k ∈ monthRange df ↔ minMonthKey df ≤ k ∧ k ≤ maxMonthKey df := by
  have hlh := minMonthKey_le_maxMonthKey hne
  unfold minMonthKey maxMonthKey at hlh ⊢
  unfold monthRange
  cases h : monthKeys df with
  | nil => exact absurd h (monthKeys_ne_nil hne)
  | cons k0 ks =>
    rw [h] at hlh
    simp only [List.mem_map, List.mem_range]
    constructor
    · rintro ⟨i, hi, rfl⟩
      omega
    · rintro ⟨h1, h2⟩
      exact ⟨k - ks.foldl min k0, by omega, by omega⟩

lemma monthKey_bounds {df : List Row} {r : Row} (hr : r ∈ df) :
    minMonthKey df ≤ monthKey r.date ∧ monthKey r.date ≤ maxMonthKey df := by
  have hx : monthKey r.date ∈ monthKeys df := List.mem_map_of_mem _ hr
  unfold minMonthKey maxMonthKey
  cases h : monthKeys df with
  | nil => rw [h] at hx; cases hx
  | cons k0 ks =>
    rw [h] at hx
    rcases List.mem_cons.mp hx with h' | h'
    · rw [h']
      exact ⟨foldl_min_le_self k0 ks, self_le_foldl_max k0 ks⟩
    · exact ⟨foldl_min_le_mem k0 h', mem_le_foldl_max k0 h'⟩

lemma pairwise_lt_monthRange (df : List Row) :
    List.Pairwise (· < ·) (monthRange df) := by
  unfold monthRange
  cases monthKeys df with
  | nil => exact List.Pairwise.nil
  | cons k0 ks =>
    exact List.pairwise_map.mpr ((List.pairwise_lt_range _).imp fun h => by omega)

lemma monthlyTrend_keys (df : List Row) :
    ((monthlyTrend df).map fun b => b.key) = monthRange df := by
  unfold monthlyTrend
  rw [List.map_map]
  exact List.map_id _

lemma monthlySummary_keys (df : List Row) :
    ((monthlySummary df).map fun b => b.key) = monthRange df := by
  unfold monthlySummary
  rw [List.map_map]
  exact List.map_id _

lemma momColumn_append (xs : List (Option ℚ)) (a b : Option ℚ) :
    momColumn (xs ++ [a, b]) = momDelta a b := by
  have h2 : 2 ≤ (xs ++ [a, b]).length := by simp
  have he : xs ++ [a, b] = (xs ++ [a]) ++ [b] := by simp
  unfold momColumn
  rw [if_pos h2, he, List.dropLast_concat, List.getLast?_concat, List.getLast?_concat]

lemma filter_vehicle_le_one (fs : List FleetRow) (v : ℕ)
    (hf : (fs.map fun f => f.vehicle_id).Nodup) :
    (fs.filter fun f => f.vehicle_id = v).length ≤ 1 := by
  induction fs with
  | nil => simp
  | cons f fs ih =>
    rw [List.map_cons, List.nodup_cons] at hf
    obtain ⟨hni, hnd⟩ := hf
    rw [List.filter_cons]
    by_cases hv : f.vehicle_id = v
    · have hnil : (fs.filter fun g => g.vehicle_id = v) = [] := by
        rw [List.filter_eq_nil_iff]
        intro g hg hgv
        exact hni (List.mem_map.mpr ⟨g, hg, by
          rw [hv]
          exact (of_decide_eq_true hgv)⟩)
      simp [hv, hnil]
    · simpa [hv] using ih hnd

lemma mergeOne_length (fs : List FleetRow) (d : DeliveryRow)
    (hf : (fs.map fun f => f.vehicle_id).Nodup) :
    (mergeOne fs d).length = 1 := by
  have hle := filter_vehicle_le_one fs d.vehicle_id hf
  unfold mergeOne
  cases hm : fs.filter (fun f => f.vehicle_id = d.vehicle_id) with
  | nil => rfl
  | cons m ms =>
    rw [hm, List.length_cons] at hle
    have hms : ms.length = 0 := by omega
    simp [hms]

lemma leftMerge_length (ds : List DeliveryRow) (fs : List FleetRow)
    (hf : (fs.map fun f => f.vehicle_id).Nodup) :
    (leftMerge ds fs).length = ds.length := by
  induction ds with
  | nil => rfl
  | cons d ds ih =>
    have hcons : leftMerge (d :: ds) fs = mergeOne fs d ++ leftMerge ds fs := rfl
    rw [hcons, List.length_append, mergeOne_length fs d hf, ih, List.length_cons]
    omega

lemma mkRow_none_mem {ds : List DeliveryRow} (fs : List FleetRow) {d : DeliveryRow}
    (hd : d ∈ ds) (hno : ∀ f ∈ fs, f.vehicle_id ≠ d.vehicle_id) :
    mkRow d none ∈ leftMerge ds fs := by
  have hnil : fs.filter (fun f => f.vehicle_id = d.vehicle_id) = [] := by
    rw [List.filter_eq_nil_iff]
    intro f hf hfd
    exact hno f hf (of_decide_eq_true hfd)
  refine List.mem_flatMap.mpr ⟨d, hd, ?_⟩
  unfold mergeOne
  rw [hnil]
  exact List.mem_singleton.mpr rfl

/-- A delivery event whose vehicle 99 has no entry in `exFleet`. -/
def noMatchDelivery : DeliveryRow :=
  { delivery_id := 9, vehicle_id := 99, date := ⟨2024, 1, 2⟩, city := "Kano",
    planned_minutes := 10, actual_minutes := 12, on_time := false,
    fuel_cost := 1, other_cost := 1, distance_km := 1 }

/-- A delivery dated on the last day of January 2024. -/
def c5d1 : DeliveryRow :=
  { delivery_id := 1, vehicle_id := 1, date := ⟨2024, 1, 31⟩, city := "Lagos",
    planned_minutes := 30, actual_minutes := 35, on_time := true,
    fuel_cost := 6, other_cost := 4, distance_km := 2 }

/-- A delivery dated on the first day of February 2024. -/
def c5d2 : DeliveryRow :=
  { delivery_id := 2, vehicle_id := 1, date := ⟨2024, 2, 1⟩, city := "Lagos",
    planned_minutes := 40, actual_minutes := 38, on_time := true,
    fuel_cost := 12, other_cost := 8, distance_km := 5 }

/-- The enriched table of the adjacent-dates run. -/
def c5Table : List Row := load_and_prepare_data (some [c5d1, c5d2]) (some exFleet)

/-- C1: for every enriched table whose distances do not sum to zero, the
headline Cost per Kilometer KPI of `calculate_kpis` equals
sum(total_cost) / sum(distance_km), a ratio of sums; on the example table
with total costs 10, 20 and distances 2, 5 it equals 30/7, which differs
from the mean of the per-row ratios, 9/2. -/
theorem C1_cost_per_kilometer_is_ratio_of_sums (df : List Row)
    (hd : sumQ (df.map fun r => r.distance_km) ≠ 0) :
    (calculate_kpis df).cost_per_km =
      some (sumQ (df.map fun r => r.total_cost) / sumQ (df.map fun r => r.distance_km)) ∧
    (calculate_kpis exTable).cost_per_km = some (30 / 7) ∧
    meanQ (exTable.map fun r => r.cost_per_km) = some (9 / 2) ∧
    (30 / 7 : ℚ) ≠ 9 / 2 := by
  refine ⟨?_, ?_, ?_, by norm_num⟩
  · simp [calculate_kpis, fdiv, hd]
  · norm_num [exTable, exDeliveries, exFleet, load_and_prepare_data, leftMerge, mergeOne,
      mkRow, calculate_kpis, sumQ, meanQ, fdiv, boolVal]
  · norm_num [exTable, exDeliveries, exFleet, load_and_prepare_data, leftMerge, mergeOne,
      mkRow, meanQ, sumQ, fdiv]

/-- Witness for C1 at the concrete example table. -/
theorem C1_cost_per_kilometer_is_ratio_of_sums_witness :
    (calculate_kpis exTable).cost_per_km =
      some (sumQ (exTable.map fun r => r.total_cost) /
        sumQ (exTable.map fun r => r.distance_km)) ∧
    (calculate_kpis exTable).cost_per_km = some (30 / 7) ∧
    meanQ (exTable.map fun r => r.cost_per_km) = some (9 / 2) ∧
    (30 / 7 : ℚ) ≠ 9 / 2 :=
  C1_cost_per_kilometer_is_ratio_of_sums exTable (by
    norm_num [exTable, exDeliveries, exFleet, load_and_prepare_data, leftMerge, mergeOne,
      mkRow, sumQ])

/-- C2: the month-over-month delta of a monthly-summary column is
100 × (current − previous) / previous when the previous value is nonzero,
is 0 when the previous value is 0 (previous 0 and current 5 give 0, not an
infinity), and is 0 for all five KPI deltas when the monthly bucket series
has fewer than two buckets. -/
theorem C2_mom_delta_guarded (df : List Row) (xs : List (Option ℚ)) (p c : ℚ)
    (hp : p ≠ 0) (h2 : (monthlySummary df).length < 2) :
    momColumn (xs ++ [some p, some c]) = some (100 * (c - p) / p) ∧
    momColumn (xs ++ [some 0, some 5]) = some 0 ∧
    mom_values df =
      { avg_delay := some 0, on_time_rate := some 0, cost_per_km := some 0,
        deliveries_per_vehicle := some 0, fuel_cost_share := some 0 } := by
  refine ⟨?_, ?_, ?_⟩
  · rw [momColumn_append]
    simp [momDelta, hp]
    ring
  · rw [momColumn_append]
    simp [momDelta]
  · have hn : ¬ 2 ≤ (monthlySummary df).length := Nat.not_le.mpr h2
    simp [mom_values, momColumn, List.length_map, hn]

/-- Witness for C2 on the empty table and the column ending in 2, 7. -/
theorem C2_mom_delta_guarded_witness :
    momColumn ([] ++ [some 2, some 7]) = some (100 * (7 - 2) / 2) ∧
    momColumn ([] ++ [some 0, some 5]) = some 0 ∧
    mom_values [] =
      { avg_delay := some 0, on_time_rate := some 0, cost_per_km := some 0,
        deliveries_per_vehicle := some 0, fuel_cost_share := some 0 } :=
  C2_mom_delta_guarded [] [] 2 7 (by norm_num) (by decide)

/-- C3 as stated is false: the left merge does not preserve the row count
for every registry content. With one delivery row and a registry that lists
vehicle 7 twice, the joined table has 2 rows. -/
theorem C3_counterexample_duplicate_registry_key :
    (load_and_prepare_data (some dupDeliveries) (some dupFleet)).length = 2 ∧
    dupDeliveries.length = 1 :=
  ⟨rfl, rfl⟩

/-- C3 amended: provided the registry's vehicle_id column has no duplicates
(the spec's VehicleRecord key invariant), the joined table has exactly as
many rows as the delivery table — whatever the registry rows are — and every
delivery row with no registry match is preserved with an absent
vehicle_home_city. -/
theorem C3_left_join_preserves_rows (ds : List DeliveryRow) (fs : List FleetRow)
    (hf : (fs.map fun f => f.vehicle_id).Nodup) :
    (load_and_prepare_data (some ds) (some fs)).length = ds.length ∧
    ∀ d ∈ ds, (∀ f ∈ fs, f.vehicle_id ≠ d.vehicle_id) →
      mkRow d none ∈ load_and_prepare_data (some ds) (some fs) ∧
      (mkRow d none).vehicle_home_city = none :=
  ⟨leftMerge_length ds fs hf, fun _ hd hno => ⟨mkRow_none_mem fs hd hno, rfl⟩⟩

/-- Witness for C3: the row count is preserved both for the fully matched
example table and for a table with one unmatched delivery, and the unmatched
delivery row is kept with an absent home city. -/
theorem C3_left_join_preserves_rows_witness :
    (load_and_prepare_data (some exDeliveries) (some exFleet)).length =
      exDeliveries.length ∧
    (load_and_prepare_data (some [noMatchDelivery]) (some exFleet)).length =
      [noMatchDelivery].length ∧
    mkRow noMatchDelivery none ∈
      load_and_prepare_data (some [noMatchDelivery]) (some exFleet) ∧
    (mkRow noMatchDelivery none).vehicle_home_city = none :=
  ⟨(C3_left_join_preserves_rows exDeliveries exFleet (by decide)).1,
   (C3_left_join_preserves_rows [noMatchDelivery] exFleet (by decide)).1,
   ((C3_left_join_preserves_rows [noMatchDelivery] exFleet (by decide)).2
      noMatchDelivery (List.mem_singleton.mpr rfl) (by decide)).1,
   ((C3_left_join_preserves_rows [noMatchDelivery] exFleet (by decide)).2
      noMatchDelivery (List.mem_singleton.mpr rfl) (by decide)).2⟩

/-- C4: a city selection matching no loaded row filters the table down to the
empty row set, on which every KPI aggregate is the undefined value `none`
(NaN), and the pipeline still returns a structurally complete output bundle
instead of failing. -/
theorem C4_zero_match_filter_gives_undefined_kpis (dS : Option (List DeliveryRow))
    (fS : Option (List FleetRow)) (c : String) (hc : c ≠ "All")
    (hload : load_and_prepare_data dS fS ≠ [])
    (h : ∀ r ∈ load_and_prepare_data dS fS, r.delivery_city ≠ c) :
    filterByCity c (load_and_prepare_data dS fS) = [] ∧
    calculate_kpis (filterByCity c (load_and_prepare_data dS fS)) =
      { avg_delay := none, on_time_rate := none, cost_per_km := none,
        deliveries_per_vehicle := none, fuel_cost_share := none } ∧
    runPipeline dS fS c "All" = some
      { kpis := { avg_delay := none, on_time_rate := none, cost_per_km := none,
                  deliveries_per_vehicle := none, fuel_cost_share := none },
        deltas := { avg_delay := some 0, on_time_rate := some 0, cost_per_km := some 0,
                    deliveries_per_vehicle := some 0, fuel_cost_share := some 0 },
        trend := [], delay_by_city := [], cost_time_city := [], vehicle_dist := [] } := by
  have hempty : filterByCity c (load_and_prepare_data dS fS) = [] := by
    unfold filterByCity
    rw [if_neg hc, List.filter_eq_nil_iff]
    intro r hr hrc
    exact h r hr (of_decide_eq_true hrc)
  refine ⟨hempty, ?_, ?_⟩
  · rw [hempty]
    simp [calculate_kpis, meanQ, fdiv, sumQ, vehicleCounts, vehicleIds, sortNat, boolVal]
  · simp only [runPipeline]
    rw [if_neg hload]
    have hfm : filterByMonth "All" (filterByCity c (load_and_prepare_data dS fS)) = [] := by
      rw [hempty]
      rfl
    rw [hfm]
    simp [calculate_kpis, mom_values, monthlySummary, monthRange, monthKeys, monthlyTrend,
      delayByCity, costTimeCity, cityKeys, sortStr, vehicleCounts, vehicleIds, sortNat,
      meanQ, fdiv, sumQ, momColumn, boolVal]

/-- Witness for C4: filtering the gap table by the city Kano, which appears
in none of its rows. -/
theorem C4_zero_match_filter_gives_undefined_kpis_witness :
    filterByCity "Kano" (load_and_prepare_data (some gapDeliveries) (some exFleet)) = [] ∧
    calculate_kpis
        (filterByCity "Kano" (load_and_prepare_data (some gapDeliveries) (some exFleet))) =
      { avg_delay := none, on_time_rate := none, cost_per_km := none,
        deliveries_per_vehicle := none, fuel_cost_share := none } ∧
    runPipeline (some gapDeliveries) (some exFleet) "Kano" "All" = some
      { kpis := { avg_delay := none, on_time_rate := none, cost_per_km := none,
                  deliveries_per_vehicle := none, fuel_cost_share := none },
        deltas := { avg_delay := some 0, on_time_rate := some 0, cost_per_km := some 0,
                    deliveries_per_vehicle := some 0, fuel_cost_share := some 0 },
        trend := [], delay_by_city := [], cost_time_city := [], vehicle_dist := [] } :=
  C4_zero_match_filter_gives_undefined_kpis (some gapDeliveries) (some exFleet) "Kano"
    (by decide) (by decide) (by decide)

/-- C5: the trend engine buckets rows by the calendar-month boundary of the
date: the bucket keys are exactly the month range in strictly ascending
order, and rows dated 2024-01-31 and 2024-02-01 land in the distinct buckets
keyed 24288 (January 2024) and 24289 (February 2024), both present in the
bucket sequence. -/
theorem C5_buckets_by_calendar_month_boundary (df : List Row) (r1 r2 : Row)
    (h1 : r1 ∈ df) (h2 : r2 ∈ df)
    (hd1 : r1.date = ⟨2024, 1, 31⟩) (hd2 : r2.date = ⟨2024, 2, 1⟩) :
    ((monthlyTrend df).map fun b => b.key) = monthRange df ∧
    List.Pairwise (· < ·) ((monthlyTrend df).map fun b => b.key) ∧
    r1 ∈ bucketRows df 24288 ∧
    r2 ∈ bucketRows df 24289 ∧
    (24288 : ℕ) ≠ 24289 ∧
    24288 ∈ monthRange df ∧
    24289 ∈ monthRange df := by
  have hne : df ≠ [] := by
    intro hdf
    rw [hdf] at h1
    cases h1
  have hb1 : monthKey r1.date = 24288 := by rw [hd1]; rfl
  have hb2 : monthKey r2.date = 24289 := by rw [hd2]; rfl
  have hbd1 := monthKey_bounds h1
  have hbd2 := monthKey_bounds h2
  rw [hb1] at hbd1
  rw [hb2] at hbd2
  refine ⟨monthlyTrend_keys df, ?_, ?_, ?_, by omega, ?_, ?_⟩
  · rw [monthlyTrend_keys]
    exact pairwise_lt_monthRange df
  · unfold bucketRows
    exact List.mem_filter.mpr ⟨h1, by simp [hb1]⟩
  · unfold bucketRows
    exact List.mem_filter.mpr ⟨h2, by simp [hb2]⟩
  · exact (mem_monthRange hne 24288).mpr ⟨hbd1.1, hbd1.2⟩
  · exact (mem_monthRange hne 24289).mpr ⟨hbd2.1, hbd2.2⟩

/-- Witness for C5 on the two-row table with dates 2024-01-31 and 2024-02-01. -/
theorem C5_buckets_by_calendar_month_boundary_witness :
    ((monthlyTrend c5Table).map fun b => b.key) = monthRange c5Table ∧
    List.Pairwise (· < ·) ((monthlyTrend c5Table).map fun b => b.key) ∧
    mkRow c5d1 (some "Lagos") ∈ bucketRows c5Table 24288 ∧
    mkRow c5d2 (some "Lagos") ∈ bucketRows c5Table 24289 ∧
    (24288 : ℕ) ≠ 24289 ∧
    24288 ∈ monthRange c5Table ∧
    24289 ∈ monthRange c5Table :=
  C5_buckets_by_calendar_month_boundary c5Table
    (mkRow c5d1 (some "Lagos")) (mkRow c5d2 (some "Lagos"))
    (by rw [show c5Table = [mkRow c5d1 (some "Lagos"), mkRow c5d2 (some "Lagos")] from rfl]
        exact List.Mem.head _)
    (by rw [show c5Table = [mkRow c5d1 (some "Lagos"), mkRow c5d2 (some "Lagos")] from rfl]
        exact List.Mem.tail _ (List.Mem.head _))
    rfl rfl

/-- C6: when either source table is unreadable (`none`), the loader reports
the error state by producing the empty table and `main` short-circuits,
computing no KPI, trend or breakdown output at all. -/
theorem C6_missing_source_short_circuits (dS : Option (List DeliveryRow))
    (fS : Option (List FleetRow)) (c m : String) :
    load_and_prepare_data none fS = [] ∧
    load_and_prepare_data dS none = [] ∧
    runPipeline none fS c m = none ∧
    runPipeline dS none c m = none := by
  have h1 : load_and_prepare_data none fS = [] := by
    cases fS <;> rfl
  have h2 : load_and_prepare_data dS none = [] := by
    cases dS <;> rfl
  refine ⟨h1, h2, ?_, ?_⟩
  · simp [runPipeline, h1]
  · simp [runPipeline, h2]

/-- C7: the city and month filters commute, and the "All" selection is the
identity on its dimension. -/
theorem C7_filters_commute_and_all_is_identity (df : List Row) (c m : String) :
    filterByMonth m (filterByCity c df) = filterByCity c (filterByMonth m df) ∧
    filterByCity "All" df = df ∧
    filterByMonth "All" df = df := by
  refine ⟨?_, by simp [filterByCity], by simp [filterByMonth]⟩
  unfold filterByCity filterByMonth
  by_cases hc : c = "All" <;> by_cases hm : m = "All" <;>
    simp [hc, hm, List.filter_filter, Bool.and_comm]

/-- C8: the pipeline is deterministic: two runs on equal source contents and
an equal filter selection produce identical output bundles. -/
theorem C8_pipeline_deterministic (d1 d2 : Option (List DeliveryRow))
    (f1 f2 : Option (List FleetRow)) (c1 c2 m1 m2 : String)
    (hd : d1 = d2) (hf : f1 = f2) (hc : c1 = c2) (hm : m1 = m2) :
    runPipeline d1 f1 c1 m1 = runPipeline d2 f2 c2 m2 := by
  rw [hd, hf, hc, hm]

/-- Witness for C8 on two runs with the example sources and filters. -/
theorem C8_pipeline_deterministic_witness :
    runPipeline (some exDeliveries) (some exFleet) "All" "Jan 2024" =
      runPipeline (some exDeliveries) (some exFleet) "All" "Jan 2024" :=
  C8_pipeline_deterministic (some exDeliveries) (some exDeliveries)
    (some exFleet) (some exFleet) "All" "All" "Jan 2024" "Jan 2024" rfl rfl rfl rfl

/-- C9: the monthly resample produces one bucket for every calendar month
between the earliest and latest date, gap months included; an empty month
has `none` (NaN) mean aggregates and delivery count 0; on the gap table
(records in January and March 2024 only) the second-to-last bucket — the
previous bucket of every MoM delta — is the empty February bucket, making
the mean-based MoM deltas NaN and the count-based one 0. -/
theorem C9_resample_includes_empty_gap_months (df : List Row) (k : ℕ)
    (hne : df ≠ []) (hk : bucketRows df k = []) :
    ((monthlySummary df).map fun b => b.key) = monthRange df ∧
    (k ∈ monthRange df ↔ minMonthKey df ≤ k ∧ k ≤ maxMonthKey df) ∧
    mkBucket df k =
      { key := k, avg_delay := none, on_time_rate := none, cost_per_km := none,
        deliveries_per_vehicle := 0, fuel_cost_share := none } ∧
    monthlySummary gapTable =
      [mkBucket gapTable 24288, mkBucket gapTable 24289, mkBucket gapTable 24290] ∧
    (monthlySummary gapTable).dropLast.getLast? = some (mkBucket gapTable 24289) ∧
    mkBucket gapTable 24289 =
      { key := 24289, avg_delay := none, on_time_rate := none, cost_per_km := none,
        deliveries_per_vehicle := 0, fuel_cost_share := none } ∧
    (mom_values gapTable).avg_delay = none ∧
    (mom_values gapTable).deliveries_per_vehicle = some 0 := by
  have hfeb : bucketRows gapTable 24289 = [] := rfl
  have hsum : monthlySummary gapTable =
      [mkBucket gapTable 24288, mkBucket gapTable 24289, mkBucket gapTable 24290] := rfl
  have hb2a : (mkBucket gapTable 24289).avg_delay = none := by
    simp [mkBucket, hfeb, meanQ, fdiv, sumQ]
  have hb2c : (mkBucket gapTable 24289).deliveries_per_vehicle = 0 := rfl
  refine ⟨monthlySummary_keys df, mem_monthRange hne k, ?_, hsum, rfl, ?_, ?_, ?_⟩
  · simp [mkBucket, hk, meanQ, fdiv, sumQ]
  · simp [mkBucket, hfeb, meanQ, fdiv, sumQ]
  · show momColumn ((monthlySummary gapTable).map fun b => b.avg_delay) = none
    rw [hsum]
    simp only [List.map_cons, List.map_nil]
    rw [show ([(mkBucket gapTable 24288).avg_delay, (mkBucket gapTable 24289).avg_delay,
          (mkBucket gapTable 24290).avg_delay] : List (Option ℚ)) =
        [(mkBucket gapTable 24288).avg_delay] ++
          [(mkBucket gapTable 24289).avg_delay, (mkBucket gapTable 24290).avg_delay] from rfl,
      momColumn_append]
    simp [momDelta, hb2a]
  · show momColumn ((monthlySummary gapTable).map fun b =>
        some ((b.deliveries_per_vehicle : ℚ))) = some 0
    rw [hsum]
    simp only [List.map_cons, List.map_nil]
    rw [show ([some ((mkBucket gapTable 24288).deliveries_per_vehicle : ℚ),
          some ((mkBucket gapTable 24289).deliveries_per_vehicle : ℚ),
          some ((mkBucket gapTable 24290).deliveries_per_vehicle : ℚ)] : List (Option ℚ)) =
        [some ((mkBucket gapTable 24288).deliveries_per_vehicle : ℚ)] ++
          [some ((mkBucket gapTable 24289).deliveries_per_vehicle : ℚ),
           some ((mkBucket gapTable 24290).deliveries_per_vehicle : ℚ)] from rfl,
      momColumn_append]
    rw [hb2c]
    simp [momDelta]

/-- Witness for C9 at the gap table and the empty February 2024 bucket. -/
theorem C9_resample_includes_empty_gap_months_witness :
    ((monthlySummary gapTable).map fun b => b.key) = monthRange gapTable ∧
    (24289 ∈ monthRange gapTable ↔
      minMonthKey gapTable ≤ 24289 ∧ 24289 ≤ maxMonthKey gapTable) ∧
    mkBucket gapTable 24289 =
      { key := 24289, avg_delay := none, on_time_rate := none, cost_per_km := none,
        deliveries_per_vehicle := 0, fuel_cost_share := none } ∧
    monthlySummary gapTable =
      [mkBucket gapTable 24288, mkBucket gapTable 24289, mkBucket gapTable 24290] ∧
    (monthlySummary gapTable).dropLast.getLast? = some (mkBucket gapTable 24289) ∧
    mkBucket gapTable 24289 =
      { key := 24289, avg_delay := none, on_time_rate := none, cost_per_km := none,
        deliveries_per_vehicle := 0, fuel_cost_share := none } ∧
    (mom_values gapTable).avg_delay = none ∧
    (mom_values gapTable).deliveries_per_vehicle = some 0 :=
  C9_resample_includes_empty_gap_months gapTable 24289 (by decide) rfl

/-- C10: load failure is signalled by the empty-table sentinel, so a readable
delivery source with zero rows is indistinguishable at the caller from a
missing one — the loader returns the same empty table in both cases and the
pipeline short-circuits to the no-output state in both cases. -/
theorem C10_empty_source_indistinguishable_from_missing (fs : List FleetRow)
    (c m : String) :
    load_and_prepare_data (some []) (some fs) = [] ∧
    load_and_prepare_data (some []) (some fs) = load_and_prepare_data none (some fs) ∧
    runPipeline (some []) (some fs) c m = none ∧
    runPipeline (some []) (some fs) c m = runPipeline none (some fs) c m := by
  have h : load_and_prepare_data (some []) (some fs) = [] := rfl
  have hp : runPipeline (some []) (some fs) c m = none := by
    simp [runPipeline, h]
  have hp2 : runPipeline none (some fs) c m = none := by
    simp [runPipeline, load_and_prepare_data]
  exact ⟨h, rfl, hp, by rw [hp, hp2]⟩

end Dashboard
